import Mathlib

/-!
Verification of the credential and token lifecycle engine of a
password-login template (Express/Mongoose application).

The JavaScript source is shallowly embedded: each Mongoose model method and
each controller function becomes a pure Lean function over explicit state
(the persisted user and reset-token collections).  JavaScript null versus
undefined is modelled by the JsField type, thrown exceptions by Except,
bcrypt salted hashing by a constructor pairing the salt with the hashed
preimage (compare succeeds exactly on the original preimage, matching the
collision-freeness the design assumes), and timestamps by natural-number
millisecond counts with Date.now passed in explicitly.
-/

/-- Exceptions thrown by the JavaScript runtime or by libraries. -/
inductive JsError where
  /-- TypeError, e.g. reading a property of null or destructuring undefined. -/
  | typeError
  /-- The Illegal-arguments error bcryptjs throws when the stored hash is
  not a string (undefined or null). -/
  | illegalArguments
  /-- A failure thrown by the outbound email collaborator. -/
  | emailSendError
  /-- The TokenExpiredError rethrown out of the catch block. -/
  | tokenExpired
deriving DecidableEq, Repr

/-- A document field that can be undefined (never set), null (explicitly
cleared) or hold a value, mirroring JavaScript field semantics. -/
inductive JsField (α : Type) where
  | undef
  | null
  | val (a : α)
deriving DecidableEq, Repr

/-- A bcrypt salted hash.  The model keeps the salt and the hashed preimage;
compareSync recognises exactly the original preimage. -/
structure BcryptHash where
  salt : Nat
  preimage : String
deriving DecidableEq, Repr

/-- bcryptjs.hashSync: salted hash of a string. -/
def hashSync (s : String) (salt : Nat) : BcryptHash :=
  { salt := salt, preimage := s }

/-- bcryptjs.compareSync on a string hash: true exactly on the preimage. -/
def compareSync (raw : String) (h : BcryptHash) : Bool :=
  raw == h.preimage

/-- bcryptjs.compareSync applied to a document field: throws the
Illegal-arguments error when the stored hash is undefined or null. -/
def jsCompare (raw : String) (f : JsField BcryptHash) : Except JsError Bool :=
  match f with
  | JsField.val h => Except.ok (compareSync raw h)
  | _ => Except.error JsError.illegalArguments

/-- The user document of src/models/user.js.  The id stands for the
store-assigned ObjectId. -/
structure User where
  id : Nat
  emailAddress : String
  passwordHash : JsField BcryptHash
  loginAttempts : Nat
  loginAttemptsExpiry : Nat
  loginNonces : List BcryptHash
  verified : Bool
  verificationSlugHash : JsField BcryptHash
  verificationIpHash : JsField BcryptHash
  verificationExpiry : JsField Nat
deriving DecidableEq, Repr

/-- schema.methods.setPassword: store a fresh salted hash of the password. -/
def setPassword (u : User) (password : String) (salt : Nat) : User :=
  { u with passwordHash := JsField.val (hashSync password salt) }

/-- schema.methods.checkPassword.  The source guards with
passwordHash === null, which does not catch an undefined (never set) hash;
in that case bcryptjs.compareSync throws. -/
def checkPassword (u : User) (password : String) : Except JsError Bool :=
  if u.passwordHash = JsField.null then Except.ok false
  else jsCompare password u.passwordHash

/-- schema.virtual exceededLoginAttempts:
Date.now() < loginAttemptsExpiry and loginAttempts >= MAX_LOGIN_ATTEMPTS. -/
def exceededLoginAttempts (u : User) (now maxAttempts : Nat) : Bool :=
  now < u.loginAttemptsExpiry && maxAttempts ≤ u.loginAttempts

/-- schema.virtual loginAttemptsExpired: Date.now() >= loginAttemptsExpiry. -/
def loginAttemptsExpired (u : User) (now : Nat) : Bool :=
  u.loginAttemptsExpiry ≤ now

/-- schema.methods.resetLoginAttemptsExpiry:
loginAttemptsExpiry := Date.now() + 1000 * 60 * 5. -/
def resetLoginAttemptsExpiry (u : User) (now : Nat) : User :=
  { u with loginAttemptsExpiry := now + 1000 * 60 * 5 }

/-- schema.methods.generateLoginNonce: draw a nonce, push its salted hash
onto loginNonces, return the raw nonce.  The random draw and salt are
passed in explicitly. -/
def generateLoginNonce (u : User) (nonce : String) (salt : Nat) :
    String × User :=
  (nonce, { u with loginNonces := u.loginNonces ++ [hashSync nonce salt] })

/-- schema.methods.getLoginNonceIndex: findIndex over loginNonces with
compareSync; -1 when absent. -/
def getLoginNonceIndex (u : User) (nonce : String) : Int :=
  match u.loginNonces.findIdx? (fun h => compareSync nonce h) with
  | some i => (i : Int)
  | none => -1

/-- schema.methods.removeLoginNonce: splice out the matching entry when the
index is not -1. -/
def removeLoginNonce (u : User) (nonce : String) : Bool × User :=
  let index := getLoginNonceIndex u nonce
  if index ≠ -1 then
    (true, { u with loginNonces := u.loginNonces.eraseIdx index.toNat })
  else
    (false, u)

/-- schema.methods.removeAllLoginNonces. -/
def removeAllLoginNonces (u : User) : User :=
  { u with loginNonces := [] }

/-- schema.methods.checkVerification: compareSync on the slug hash, then
(short-circuit and) compareSync on the ip hash. -/
def checkVerification (u : User) (slug ip : String) : Except JsError Bool :=
  match jsCompare slug u.verificationSlugHash with
  | Except.error e => Except.error e
  | Except.ok false => Except.ok false
  | Except.ok true => jsCompare ip u.verificationIpHash

/-- userModel.findOne with emailAddress and verified: true. -/
def findVerifiedUser (users : List User) (email : String) : Option User :=
  users.find? (fun u => u.emailAddress == email && u.verified)

/-- userModel.findById. -/
def findUserById (users : List User) (uid : Nat) : Option User :=
  users.find? (fun u => u.id == uid)

/-- user.save: write the mutated document back by id. -/
def saveUser (users : List User) (u : User) : List User :=
  users.map (fun v => if v.id == u.id then u else v)

/-- user.remove: delete the document by id. -/
def removeUserById (users : List User) (uid : Nat) : List User :=
  users.filter (fun v => v.id != uid)

/-- JavaScript String.prototype.split at a single space, written over the
character list so that it evaluates by reduction. -/
def jsSplitSpaceAux : List Char → List Char → List String
  | [], acc => [String.mk acc.reverse]
  | c :: cs, acc =>
    if c = ' ' then String.mk acc.reverse :: jsSplitSpaceAux cs []
    else jsSplitSpaceAux cs (c :: acc)

/-- bearerHeader.split at a space: the list of space-separated chunks. -/
def jsSplitSpace (s : String) : List String :=
  jsSplitSpaceAux s.toList []

/-- The decoded JWT payload: the claims id, exp (seconds) and jti, each
possibly absent. -/
structure Payload where
  id : Option Nat
  exp : Option Nat
  jti : Option String
deriving DecidableEq, Repr

/-- A structurally well-formed JWT: its payload plus the secret it was
signed with. -/
structure SignedToken where
  payload : Payload
  signedWith : String
deriving DecidableEq, Repr

/-- The three outcomes of jwt.verify: the decoded payload, a
TokenExpiredError, or a JsonWebTokenError. -/
inductive JwtVerifyOutcome where
  | ok (p : Payload)
  | tokenExpiredError
  | jsonWebTokenError
deriving DecidableEq, Repr

/-- jwt.verify on a structurally valid token: the signature is checked
first, then the exp claim against the clock; the payload is returned only
when neither check throws. -/
def jwtVerify (tok : SignedToken) (secret : String) (now : Nat) :
    JwtVerifyOutcome :=
  if tok.signedWith ≠ secret then JwtVerifyOutcome.jsonWebTokenError
  else
    match tok.payload.exp with
    | some e =>
      if e ≤ now then JwtVerifyOutcome.tokenExpiredError
      else JwtVerifyOutcome.ok tok.payload
    | none => JwtVerifyOutcome.ok tok.payload

/-- jwt.verify on a raw string: a string that does not decode to a
structurally valid token throws JsonWebTokenError. -/
def jwtVerifyStr (decode : String → Option SignedToken)
    (raw secret : String) (now : Nat) : JwtVerifyOutcome :=
  match decode raw with
  | none => JwtVerifyOutcome.jsonWebTokenError
  | some tok => jwtVerify tok secret now

/-- The distinct 401 messages of checkLoginToken. -/
inductive AuthMsg where
  /-- You are not logged in. -/
  | notLoggedIn
  /-- Your login has expired. Please log in again. -/
  | loginExpired
deriving DecidableEq, Repr

/-- Outcome of checkLoginToken: a 401 rejection, or the login data exposed
on the request. -/
inductive AuthOutcome where
  | err401 (m : AuthMsg)
  | loggedIn (id : Nat) (nonce : String) (user : User)
deriving DecidableEq, Repr

/-- The catch block of checkLoginToken for a TokenExpiredError.  In the
source the local variable payload still holds its initial null at this
point, because jwt.verify threw before the assignment completed, so the
parameter below is always none when called; the property access payload.id
on null throws a TypeError.  The some branch transcribes what the block
does after that access: look up the user, remove the session nonce, save,
and report the expired login, or rethrow when the user is absent. -/
def expiredCatch (users : List User) (payload : Option Payload) :
    Except JsError AuthOutcome × List User :=
  match payload with
  | none => (Except.error JsError.typeError, users)
  | some p =>
    match findUserById users (p.id.getD 0) with
    | some user =>
      let user := (removeLoginNonce user (p.jti.getD "")).2
      (Except.ok (AuthOutcome.err401 AuthMsg.loginExpired), saveUser users user)
    | none => (Except.error JsError.tokenExpired, users)

/-- checkLoginToken (src/lib/auth.js): read the bearer header, split out
the raw token, run jwt.verify inside a try whose catch dispatches on the
error name, then resolve the id claim to a verified user and require the
jti nonce to still be registered. -/
def checkLoginToken (decode : String → Option SignedToken) (secret : String)
    (now : Nat) (users : List User) (authHeader : Option String) :
    Except JsError AuthOutcome × List User :=
  match authHeader with
  | none => (Except.ok (AuthOutcome.err401 AuthMsg.notLoggedIn), users)
  | some bearerHeader =>
    match (jsSplitSpace bearerHeader)[1]? with
    | none => (Except.ok (AuthOutcome.err401 AuthMsg.notLoggedIn), users)
    | some rawToken =>
      match jwtVerifyStr decode rawToken secret now with
      | JwtVerifyOutcome.ok payload =>
        if payload.id = none ∨ payload.exp = none ∨ payload.jti = none then
          (Except.ok (AuthOutcome.err401 AuthMsg.notLoggedIn), users)
        else
          match findUserById users (payload.id.getD 0) with
          | none => (Except.ok (AuthOutcome.err401 AuthMsg.notLoggedIn), users)
          | some user =>
            if user.verified = false then
              (Except.ok (AuthOutcome.err401 AuthMsg.notLoggedIn), users)
            else if getLoginNonceIndex user (payload.jti.getD "") = -1 then
              (Except.ok (AuthOutcome.err401 AuthMsg.notLoggedIn), users)
            else
              (Except.ok
                (AuthOutcome.loggedIn user.id (payload.jti.getD "") user),
               users)
      | JwtVerifyOutcome.tokenExpiredError => expiredCatch users none
      | JwtVerifyOutcome.jsonWebTokenError =>
        (Except.ok (AuthOutcome.err401 AuthMsg.notLoggedIn), users)

/-- Result of the verify controller of src/controllers/user.js. -/
inductive VerifyResult where
  /-- 404 Verification Failed: no unverified user for this email. -/
  | notFound
  /-- 400 Verification Failed: slug or ip hash mismatch. -/
  | invalid
  /-- Verification succeeded. -/
  | success
deriving DecidableEq, Repr

/-- The verify controller (src/controllers/user.js): find an unverified
user by email; check slug and ip against the stored hashes; on success set
verified and clear the three verification fields in one save. -/
def verify (users : List User) (email slug ip : String) :
    Except JsError VerifyResult × List User :=
  match users.find? (fun u => u.emailAddress == email && u.verified == false) with
  | none => (Except.ok VerifyResult.notFound, users)
  | some user =>
    match checkVerification user slug ip with
    | Except.error e => (Except.error e, users)
    | Except.ok false => (Except.ok VerifyResult.invalid, users)
    | Except.ok true =>
      let user :=
        { user with verified := true, verificationExpiry := JsField.null,
                    verificationSlugHash := JsField.null,
                    verificationIpHash := JsField.null }
      (Except.ok VerifyResult.success, saveUser users user)

/-- Result of the local login strategy of src/lib/auth.js (the 401 messages
are collapsed to their distinct observable cases). -/
inductive LoginOutcome where
  /-- 401 The username or password given is incorrect. -/
  | incorrect
  /-- 401 Too many incorrect logins. Try again later. -/
  | lockedOut
  /-- Authentication succeeded; carries the in-memory user document. -/
  | success (u : User)
deriving DecidableEq, Repr

/-- The core of localLoginStrategy (src/lib/auth.js): resolve the email to
a verified user, reject while locked out before checking the password,
reset the counter when the window has expired, then check the password and
on failure increment the counter, re-arm the window and save. -/
def localLoginStrategy (users : List User) (emailAddress password : String)
    (now maxAttempts : Nat) : Except JsError LoginOutcome × List User :=
  match findVerifiedUser users emailAddress with
  | none => (Except.ok LoginOutcome.incorrect, users)
  | some user =>
    if exceededLoginAttempts user now maxAttempts then
      (Except.ok LoginOutcome.lockedOut, users)
    else
      let user :=
        if loginAttemptsExpired user now then { user with loginAttempts := 0 }
        else user
      match checkPassword user password with
      | Except.error e => (Except.error e, users)
      | Except.ok true => (Except.ok (LoginOutcome.success user), users)
      | Except.ok false =>
        let user := { user with loginAttempts := user.loginAttempts + 1 }
        let user := resetLoginAttemptsExpiry user now
        (Except.ok LoginOutcome.incorrect, saveUser users user)


/-- The password reset token document of src/models/password-token.js. -/
structure PassToken where
  id : Nat
  emailAddress : String
  authenticated : Bool
  authSlugHash : JsField BcryptHash
  spent : Bool
deriving DecidableEq, Repr

/-- schema.methods.check of the password token: compareSync of the slug
against the stored auth slug hash. -/
def tokenCheck (t : PassToken) (slug : String) : Except JsError Bool :=
  jsCompare slug t.authSlugHash

/-- passTokenModel.findOne with emailAddress, authenticated and spent. -/
def findToken (tokens : List PassToken) (email : String) (auth sp : Bool) :
    Option PassToken :=
  tokens.find? (fun t =>
    t.emailAddress == email && t.authenticated == auth && t.spent == sp)

/-- passTokenModel.findOne with emailAddress only. -/
def findAnyToken (tokens : List PassToken) (email : String) :
    Option PassToken :=
  tokens.find? (fun t => t.emailAddress == email)

/-- token.save: write the mutated token back by id. -/
def saveToken (tokens : List PassToken) (t : PassToken) : List PassToken :=
  tokens.map (fun v => if v.id == t.id then t else v)

/-- token.remove: delete the token by id. -/
def removeTokenById (tokens : List PassToken) (tid : Nat) : List PassToken :=
  tokens.filter (fun v => v.id != tid)

/-- Results of the password-token controllers of
src/controllers/password-token.js. -/
inductive ResetOutcome where
  /-- 400 input validation failure. -/
  | validationFailed
  /-- 404 user or token not found. -/
  | notFound
  /-- 401 the submitted slug does not match. -/
  | unauthorized
  /-- 409 a token has recently been issued. -/
  | conflict
  /-- The operation succeeded. -/
  | success
deriving DecidableEq, Repr

/-- The request controller: validate, resolve a verified user, reject when
a token already exists, create and save a Requested token, then send the
email; when delivery throws, remove the just-created token and rethrow.
The validator outcome, the random slug and salt, the new store id and the
email delivery outcome are passed in explicitly. -/
def request (users : List User) (tokens : List PassToken)
    (email slug : String) (salt newId : Nat) (inputValid emailOk : Bool) :
    Except JsError ResetOutcome × List PassToken :=
  if inputValid = false then
    (Except.ok ResetOutcome.validationFailed, tokens)
  else
    match findVerifiedUser users email with
    | none => (Except.ok ResetOutcome.notFound, tokens)
    | some _ =>
      match findAnyToken tokens email with
      | some _ => (Except.ok ResetOutcome.conflict, tokens)
      | none =>
        let token : PassToken :=
          { id := newId, emailAddress := email, authenticated := false,
            authSlugHash := JsField.val (hashSync slug salt), spent := false }
        let tokens := tokens ++ [token]
        if emailOk then (Except.ok ResetOutcome.success, tokens)
        else
          (Except.error JsError.emailSendError, removeTokenById tokens newId)

/-- The authenticate controller: resolve a verified user, find a token
with authenticated false and spent false, check the slug, then set
authenticated and clear the slug hash. -/
def authenticate (users : List User) (tokens : List PassToken)
    (email slug : String) : Except JsError ResetOutcome × List PassToken :=
  match findVerifiedUser users email with
  | none => (Except.ok ResetOutcome.notFound, tokens)
  | some _ =>
    match findToken tokens email false false with
    | none => (Except.ok ResetOutcome.notFound, tokens)
    | some token =>
      match tokenCheck token slug with
      | Except.error e => (Except.error e, tokens)
      | Except.ok false => (Except.ok ResetOutcome.unauthorized, tokens)
      | Except.ok true =>
        let token :=
          { token with authenticated := true, authSlugHash := JsField.null }
        (Except.ok ResetOutcome.success, saveToken tokens token)

/-- The changePassword controller: validate, resolve a verified user, find
a token with authenticated true and spent false, mark it spent and save,
then update the user password and save. -/
def changePassword (users : List User) (tokens : List PassToken)
    (email password : String) (salt : Nat) (pwValid : Bool) :
    Except JsError ResetOutcome × List PassToken × List User :=
  if pwValid = false then
    (Except.ok ResetOutcome.validationFailed, tokens, users)
  else
    match findVerifiedUser users email with
    | none => (Except.ok ResetOutcome.notFound, tokens, users)
    | some user =>
      match findToken tokens email true false with
      | none => (Except.ok ResetOutcome.notFound, tokens, users)
      | some token =>
        let token := { token with spent := true }
        let tokens := saveToken tokens token
        let user := setPassword user password salt
        (Except.ok ResetOutcome.success, tokens, saveUser users user)

/-- Result of the register controller of src/controllers/user.js. -/
inductive RegOutcome where
  /-- 400 input validation failure. -/
  | validationFailed
  /-- 409 this email address is taken. -/
  | conflict
  /-- Registration succeeded. -/
  | success
deriving DecidableEq, Repr

/-- The register controller: validate, reject a duplicate email, create
the unverified user with verification hashes and password hash, save, then
send the verification email; when delivery throws, remove the just-created
user and rethrow. -/
def register (users : List User) (email password ip slug : String)
    (ipSalt slugSalt pwSalt newId now : Nat) (inputValid emailOk : Bool) :
    Except JsError RegOutcome × List User :=
  if inputValid = false then (Except.ok RegOutcome.validationFailed, users)
  else
    match users.find? (fun v => v.emailAddress == email) with
    | some _ => (Except.ok RegOutcome.conflict, users)
    | none =>
      let user : User :=
        { id := newId, emailAddress := email,
          passwordHash := JsField.val (hashSync password pwSalt),
          loginAttempts := 0, loginAttemptsExpiry := now, loginNonces := [],
          verified := false,
          verificationSlugHash := JsField.val (hashSync slug slugSalt),
          verificationIpHash := JsField.val (hashSync ip ipSalt),
          verificationExpiry := JsField.val now }
      let users := users ++ [user]
      if emailOk then (Except.ok RegOutcome.success, users)
      else (Except.error JsError.emailSendError, removeUserById users newId)

/-- Options object of asyncEndpoint (src/lib/async-wrap.js); okStatus may
itself be absent. -/
structure EndpointOptions where
  okStatus : Option Nat
deriving DecidableEq, Repr

/-- The resolved value of the wrapped handler promise: an object with an
error field, a truthy non-error value, or undefined. -/
inductive HandlerResult where
  | errorRet (status : Option Nat)
  | value
  | nothing
deriving DecidableEq, Repr

/-- The response the wrapped endpoint produces. -/
inductive EndpointResponse where
  /-- res.status(code).json(body). -/
  | jsonStatus (code : Nat)
  /-- res.status(code).end(). -/
  | endStatus (code : Nat)
deriving DecidableEq, Repr

/-- asyncEndpoint (src/lib/async-wrap.js).  The second parameter is the
destructured options object and has no default, so passing no options (the
options argument is undefined) throws a TypeError at the destructuring,
before any middleware is produced; with an options object present, the
handler result is mapped to an error status, okStatus-or-200 json, or
okStatus-or-200 end. -/
def asyncEndpoint (options : Option EndpointOptions) (ret : HandlerResult) :
    Except JsError EndpointResponse :=
  match options with
  | none => Except.error JsError.typeError
  | some opts =>
    match ret with
    | HandlerResult.errorRet st =>
      Except.ok (EndpointResponse.jsonStatus (st.getD 500))
    | HandlerResult.value =>
      Except.ok (EndpointResponse.jsonStatus (opts.okStatus.getD 200))
    | HandlerResult.nothing =>
      Except.ok (EndpointResponse.endStatus (opts.okStatus.getD 200))

/-- C3: when the attempts window has elapsed (now >= loginAttemptsExpiry), a
failed password check first resets loginAttempts to 0, then increments it,
leaving exactly 1, and re-arms loginAttemptsExpiry to now plus the fixed
five-minute window (1000 * 60 * 5 milliseconds). -/
theorem expired_window_failed_login_resets (users : List User) (u : User)
    (email password : String) (h : BcryptHash) (now maxAttempts : Nat)
    (hfind : findVerifiedUser users email = some u)
    (hexpired : u.loginAttemptsExpiry ≤ now)
    (hhash : u.passwordHash = JsField.val h)
    (hwrong : (password == h.preimage) = false) :
    localLoginStrategy users email password now maxAttempts =
      (Except.ok LoginOutcome.incorrect,
       saveUser users
         { u with loginAttempts := 1,
                  loginAttemptsExpiry := now + 1000 * 60 * 5 }) := by
  have hnotlock : exceededLoginAttempts u now maxAttempts = false := by
    simp [exceededLoginAttempts]
    intro hlt
    omega
  have hwin : loginAttemptsExpired u now = true := by
    simpa [loginAttemptsExpired] using hexpired
  simp [localLoginStrategy, hfind, hnotlock, hwin, checkPassword, hhash,
    jsCompare, compareSync, hwrong, resetLoginAttemptsExpiry]

/-- Witness for expired_window_failed_login_resets: a stale lockout window
(3 failures, expiry 1000) and a wrong password at time 2000 leave the
counter at exactly 1 and the expiry at 302000. -/
theorem expired_window_failed_login_resets_witness :
    localLoginStrategy
      [{ id := 3, emailAddress := "carol@example.com",
         passwordHash := JsField.val (hashSync "Right1!" 4),
         loginAttempts := 3, loginAttemptsExpiry := 1000, loginNonces := [],
         verified := true, verificationSlugHash := JsField.null,
         verificationIpHash := JsField.null,
         verificationExpiry := JsField.null }] "carol@example.com" "Wrong1!"
      2000 3 =
      (Except.ok LoginOutcome.incorrect,
       [{ id := 3, emailAddress := "carol@example.com",
          passwordHash := JsField.val (hashSync "Right1!" 4),
          loginAttempts := 1, loginAttemptsExpiry := 302000,
          loginNonces := [], verified := true,
          verificationSlugHash := JsField.null,
          verificationIpHash := JsField.null,
          verificationExpiry := JsField.null }]) :=
  expired_window_failed_login_resets
    [{ id := 3, emailAddress := "carol@example.com",
       passwordHash := JsField.val (hashSync "Right1!" 4),
       loginAttempts := 3, loginAttemptsExpiry := 1000, loginNonces := [],
       verified := true, verificationSlugHash := JsField.null,
       verificationIpHash := JsField.null,
       verificationExpiry := JsField.null }]
    { id := 3, emailAddress := "carol@example.com",
      passwordHash := JsField.val (hashSync "Right1!" 4),
      loginAttempts := 3, loginAttemptsExpiry := 1000, loginNonces := [],
      verified := true, verificationSlugHash := JsField.null,
      verificationIpHash := JsField.null,
      verificationExpiry := JsField.null }
    "carol@example.com" "Wrong1!" (hashSync "Right1!" 4) 2000 3
    (by decide) (by decide) rfl (by decide)

/-- C4: while a user is locked out (now < loginAttemptsExpiry and
loginAttempts >= maxAttempts), the strategy rejects with the lockout
failure before the password is checked, leaving the store untouched, and
the outcome is identical for any two submitted passwords. -/
theorem locked_out_independent_of_password (users : List User) (u : User)
    (email password₁ password₂ : String) (now maxAttempts : Nat)
    (hfind : findVerifiedUser users email = some u)
    (hnow : now < u.loginAttemptsExpiry)
    (hmax : maxAttempts ≤ u.loginAttempts) :
    localLoginStrategy users email password₁ now maxAttempts =
      (Except.ok LoginOutcome.lockedOut, users) ∧
    localLoginStrategy users email password₁ now maxAttempts =
      localLoginStrategy users email password₂ now maxAttempts := by
  have hlock : exceededLoginAttempts u now maxAttempts = true := by
    simp [exceededLoginAttempts]
    exact ⟨hnow, hmax⟩
  constructor <;> simp [localLoginStrategy, hfind, hlock]

/-- Witness for locked_out_independent_of_password: with 3 failures and a
live window, the correct password and a wrong password are both rejected
with the lockout failure. -/
theorem locked_out_independent_of_password_witness :
    localLoginStrategy
      [{ id := 4, emailAddress := "dave@example.com",
         passwordHash := JsField.val (hashSync "Right1!" 4),
         loginAttempts := 3, loginAttemptsExpiry := 300000,
         loginNonces := [], verified := true,
         verificationSlugHash := JsField.null,
         verificationIpHash := JsField.null,
         verificationExpiry := JsField.null }] "dave@example.com" "Right1!"
      100 3 =
      (Except.ok LoginOutcome.lockedOut,
       [{ id := 4, emailAddress := "dave@example.com",
          passwordHash := JsField.val (hashSync "Right1!" 4),
          loginAttempts := 3, loginAttemptsExpiry := 300000,
          loginNonces := [], verified := true,
          verificationSlugHash := JsField.null,
          verificationIpHash := JsField.null,
          verificationExpiry := JsField.null }]) ∧
    localLoginStrategy
      [{ id := 4, emailAddress := "dave@example.com",
         passwordHash := JsField.val (hashSync "Right1!" 4),
         loginAttempts := 3, loginAttemptsExpiry := 300000,
         loginNonces := [], verified := true,
         verificationSlugHash := JsField.null,
         verificationIpHash := JsField.null,
         verificationExpiry := JsField.null }] "dave@example.com" "Right1!"
      100 3 =
    localLoginStrategy
      [{ id := 4, emailAddress := "dave@example.com",
         passwordHash := JsField.val (hashSync "Right1!" 4),
         loginAttempts := 3, loginAttemptsExpiry := 300000,
         loginNonces := [], verified := true,
         verificationSlugHash := JsField.null,
         verificationIpHash := JsField.null,
         verificationExpiry := JsField.null }] "dave@example.com" "Wrong1!"
      100 3 :=
  locked_out_independent_of_password
    [{ id := 4, emailAddress := "dave@example.com",
       passwordHash := JsField.val (hashSync "Right1!" 4),
       loginAttempts := 3, loginAttemptsExpiry := 300000, loginNonces := [],
       verified := true, verificationSlugHash := JsField.null,
       verificationIpHash := JsField.null,
       verificationExpiry := JsField.null }]
    { id := 4, emailAddress := "dave@example.com",
      passwordHash := JsField.val (hashSync "Right1!" 4),
      loginAttempts := 3, loginAttemptsExpiry := 300000, loginNonces := [],
      verified := true, verificationSlugHash := JsField.null,
      verificationIpHash := JsField.null,
      verificationExpiry := JsField.null }
    "dave@example.com" "Right1!" "Wrong1!" 100 3
    (by decide) (by decide) (by decide)

/-- C1: for every bearer token whose signature is valid but whose expiry
has passed, jwt.verify throws TokenExpiredError before the assignment to
the local payload completes, so the catch block dereferences null and the
call ends in a TypeError with the store untouched: the user is never
looked up, no session nonce is removed, and the distinct login-expired
rejection is never produced.  This contradicts the spec and the clear
intent of the catch block. -/
theorem expired_token_type_error (decode : String → Option SignedToken)
    (secret hdr rawToken : String) (now : Nat) (users : List User)
    (tok : SignedToken) (e : Nat)
    (hsplit : (jsSplitSpace hdr)[1]? = some rawToken)
    (hdec : decode rawToken = some tok)
    (hsig : tok.signedWith = secret)
    (hexp : tok.payload.exp = some e)
    (helapsed : e ≤ now) :
    checkLoginToken decode secret now users (some hdr) =
      (Except.error JsError.typeError, users) := by
  simp [checkLoginToken, hsplit, jwtVerifyStr, hdec, jwtVerify, hsig, hexp,
    helapsed, expiredCatch]

/-- Witness for expired_token_type_error: a token signed with the correct
secret, exp 50 at clock 100, for a user whose nonce registry does hold the
matching nonce; the call returns the TypeError and the registry still
holds the nonce. -/
theorem expired_token_type_error_witness :
    checkLoginToken
      (fun s =>
        if s = "tok" then
          some { payload := { id := some 6, exp := some 50,
                              jti := some "nonce" },
                 signedWith := "secret" }
        else none)
      "secret" 100
      [{ id := 6, emailAddress := "erin@example.com",
         passwordHash := JsField.val (hashSync "pw" 2),
         loginAttempts := 0, loginAttemptsExpiry := 0,
         loginNonces := [hashSync "nonce" 8], verified := true,
         verificationSlugHash := JsField.null,
         verificationIpHash := JsField.null,
         verificationExpiry := JsField.null }]
      (some "Bearer tok") =
      (Except.error JsError.typeError,
       [{ id := 6, emailAddress := "erin@example.com",
          passwordHash := JsField.val (hashSync "pw" 2),
          loginAttempts := 0, loginAttemptsExpiry := 0,
          loginNonces := [hashSync "nonce" 8], verified := true,
          verificationSlugHash := JsField.null,
          verificationIpHash := JsField.null,
          verificationExpiry := JsField.null }]) :=
  expired_token_type_error _ "secret" "Bearer tok" "tok" 100 _
    { payload := { id := some 6, exp := some 50, jti := some "nonce" },
      signedWith := "secret" } 50
    (by decide) (by decide) rfl rfl (by decide)

/-- C5: for an unverified user whose slug and ip both match the stored
hashes, verify succeeds, setting verified and clearing the slug hash, the
ip hash and the expiry in the one saved update; repeating the call with the
same slug on the now verified user fails as not-found (404), not as an
invalid slug. -/
theorem verify_one_way_then_not_found (u : User) (slug ip : String)
    (s₁ s₂ : Nat)
    (hunv : u.verified = false)
    (hs : u.verificationSlugHash = JsField.val (hashSync slug s₁))
    (hi : u.verificationIpHash = JsField.val (hashSync ip s₂)) :
    verify [u] u.emailAddress slug ip =
      (Except.ok VerifyResult.success,
       [{ u with verified := true, verificationExpiry := JsField.null,
                 verificationSlugHash := JsField.null,
                 verificationIpHash := JsField.null }]) ∧
    verify
      [{ u with verified := true, verificationExpiry := JsField.null,
                verificationSlugHash := JsField.null,
                verificationIpHash := JsField.null }] u.emailAddress slug ip =
      (Except.ok VerifyResult.notFound,
       [{ u with verified := true, verificationExpiry := JsField.null,
                 verificationSlugHash := JsField.null,
                 verificationIpHash := JsField.null }]) := by
  constructor
  · simp [verify, List.find?, hunv, checkVerification, jsCompare, hs, hi,
      compareSync, hashSync, saveUser]
  · simp [verify, List.find?]

/-- Witness for verify_one_way_then_not_found: the spec scenario with
alice@example.com, slug abc and requester ip 1.2.3.4. -/
theorem verify_one_way_then_not_found_witness :
    verify
      [{ id := 5, emailAddress := "alice@example.com",
         passwordHash := JsField.val (hashSync "Secret123!" 9),
         loginAttempts := 0, loginAttemptsExpiry := 0, loginNonces := [],
         verified := false,
         verificationSlugHash := JsField.val (hashSync "abc" 11),
         verificationIpHash := JsField.val (hashSync "1.2.3.4" 12),
         verificationExpiry := JsField.val 900 }] "alice@example.com"
      "abc" "1.2.3.4" =
      (Except.ok VerifyResult.success,
       [{ id := 5, emailAddress := "alice@example.com",
          passwordHash := JsField.val (hashSync "Secret123!" 9),
          loginAttempts := 0, loginAttemptsExpiry := 0, loginNonces := [],
          verified := true, verificationSlugHash := JsField.null,
          verificationIpHash := JsField.null,
          verificationExpiry := JsField.null }]) ∧
    verify
      [{ id := 5, emailAddress := "alice@example.com",
         passwordHash := JsField.val (hashSync "Secret123!" 9),
         loginAttempts := 0, loginAttemptsExpiry := 0, loginNonces := [],
         verified := true, verificationSlugHash := JsField.null,
         verificationIpHash := JsField.null,
         verificationExpiry := JsField.null }] "alice@example.com"
      "abc" "1.2.3.4" =
      (Except.ok VerifyResult.notFound,
       [{ id := 5, emailAddress := "alice@example.com",
          passwordHash := JsField.val (hashSync "Secret123!" 9),
          loginAttempts := 0, loginAttemptsExpiry := 0, loginNonces := [],
          verified := true, verificationSlugHash := JsField.null,
          verificationIpHash := JsField.null,
          verificationExpiry := JsField.null }]) :=
  verify_one_way_then_not_found
    { id := 5, emailAddress := "alice@example.com",
      passwordHash := JsField.val (hashSync "Secret123!" 9),
      loginAttempts := 0, loginAttemptsExpiry := 0, loginNonces := [],
      verified := false,
      verificationSlugHash := JsField.val (hashSync "abc" 11),
      verificationIpHash := JsField.val (hashSync "1.2.3.4" 12),
      verificationExpiry := JsField.val 900 } "abc" "1.2.3.4" 11 12
    rfl rfl rfl

/-- C6: on a user on which setPassword was never called the stored hash is
the undefined field, the null guard of checkPassword does not fire, and
bcryptjs.compareSync throws its Illegal-arguments error instead of the
specified false return.  This contradicts the comment and the spec, which
intend the guard to catch a missing password. -/
theorem checkPassword_unset_throws (u : User) (password : String)
    (hunset : u.passwordHash = JsField.undef) :
    checkPassword u password = Except.error JsError.illegalArguments ∧
    checkPassword u password ≠ Except.ok false := by
  simp [checkPassword, jsCompare, hunset]

/-- Witness for checkPassword_unset_throws at a concrete never-initialised
user document. -/
theorem checkPassword_unset_throws_witness :
    checkPassword
      { id := 1, emailAddress := "alice@example.com",
        passwordHash := JsField.undef, loginAttempts := 0,
        loginAttemptsExpiry := 0, loginNonces := [], verified := false,
        verificationSlugHash := JsField.undef,
        verificationIpHash := JsField.undef,
        verificationExpiry := JsField.undef } "Secret123!"
      = Except.error JsError.illegalArguments :=
  (checkPassword_unset_throws _ "Secret123!" rfl).1

/-- C7: starting from an empty loginNonces set, generateLoginNonce followed
by removeLoginNonce with the same raw nonce yields an empty set again, and
getLoginNonceIndex on the removed nonce returns -1. -/
theorem generate_then_remove_nonce (u : User) (nonce : String) (salt : Nat)
    (hempty : u.loginNonces = []) :
    ((removeLoginNonce (generateLoginNonce u nonce salt).2 nonce).2).loginNonces
      = [] ∧
    getLoginNonceIndex
      ((removeLoginNonce (generateLoginNonce u nonce salt).2 nonce).2) nonce
      = -1 := by
  simp [removeLoginNonce, generateLoginNonce, getLoginNonceIndex, compareSync,
    hashSync, hempty, List.findIdx?, List.eraseIdx]

/-- Witness for generate_then_remove_nonce at a concrete user and nonce. -/
theorem generate_then_remove_nonce_witness :
    ((removeLoginNonce
        (generateLoginNonce
          { id := 2, emailAddress := "bob@example.com",
            passwordHash := JsField.val (hashSync "pw" 7),
            loginAttempts := 0, loginAttemptsExpiry := 0, loginNonces := [],
            verified := true, verificationSlugHash := JsField.null,
            verificationIpHash := JsField.null,
            verificationExpiry := JsField.null } "nonce123" 5).2
        "nonce123").2).loginNonces = [] :=
  (generate_then_remove_nonce _ "nonce123" 5 rfl).1

/-- C2: state machine of the password reset token.  From Requested
(authenticated false, spent false) the authenticate controller with a
matching slug moves the token to Authenticated (authenticated true, slug
hash cleared, spent still false); with a wrong slug it fails unauthorized
with the token unchanged; on any token not in Requested it fails as
not-found with the token unchanged.  The changePassword controller moves
an Authenticated token to Spent and updates the user password in the same
operation; on any token not in Authenticated it fails as not-found with
token and user unchanged.  No transition skips a state or reverses. -/
theorem reset_token_state_machine (u : User) (t : PassToken)
    (slug pw : String) (h : BcryptHash) (salt : Nat)
    (hv : u.verified = true) (he : t.emailAddress = u.emailAddress) :
    (t.authenticated = false → t.spent = false →
      t.authSlugHash = JsField.val (hashSync slug salt) →
      authenticate [u] [t] u.emailAddress slug =
        (Except.ok ResetOutcome.success,
         [{ t with authenticated := true, authSlugHash := JsField.null }])) ∧
    (t.authenticated = false → t.spent = false →
      t.authSlugHash = JsField.val h → (slug == h.preimage) = false →
      authenticate [u] [t] u.emailAddress slug =
        (Except.ok ResetOutcome.unauthorized, [t])) ∧
    (¬(t.authenticated = false ∧ t.spent = false) →
      authenticate [u] [t] u.emailAddress slug =
        (Except.ok ResetOutcome.notFound, [t])) ∧
    (t.authenticated = true → t.spent = false →
      changePassword [u] [t] u.emailAddress pw salt true =
        (Except.ok ResetOutcome.success, [{ t with spent := true }],
         [setPassword u pw salt])) ∧
    (¬(t.authenticated = true ∧ t.spent = false) →
      changePassword [u] [t] u.emailAddress pw salt true =
        (Except.ok ResetOutcome.notFound, [t], [u])) := by
  have hfind : findVerifiedUser [u] u.emailAddress = some u := by
    simp [findVerifiedUser, List.find?, hv]
  refine ⟨?_, ?_, ?_, ?_, ?_⟩
  · intro hA hS hH
    simp [authenticate, hfind, findToken, List.find?, he, hA, hS, tokenCheck,
      jsCompare, hH, compareSync, hashSync, saveToken]
  · intro hA hS hH hW
    simp [authenticate, hfind, findToken, List.find?, he, hA, hS, tokenCheck,
      jsCompare, hH, compareSync, hW]
  · intro hno
    cases hA : t.authenticated with
    | false =>
      cases hS : t.spent with
      | false => exact absurd ⟨hA, hS⟩ hno
      | true => simp [authenticate, hfind, findToken, List.find?, he, hA, hS]
    | true => simp [authenticate, hfind, findToken, List.find?, he, hA]
  · intro hA hS
    simp [changePassword, hfind, findToken, List.find?, he, hA, hS,
      saveToken, saveUser, setPassword]
  · intro hno
    cases hA : t.authenticated with
    | false => simp [changePassword, hfind, findToken, List.find?, he, hA]
    | true =>
      cases hS : t.spent with
      | false => exact absurd ⟨hA, hS⟩ hno
      | true => simp [changePassword, hfind, findToken, List.find?, he, hA, hS]

/-- Witness for reset_token_state_machine: a concrete verified user and the
token in each of its three states.  The Requested token authenticates with
the right slug (and only then), a Spent token is rejected as not-found by
authenticate, the Authenticated token is spent by changePassword, and a
Requested token is rejected as not-found by changePassword, each with the
store otherwise unchanged. -/
theorem reset_token_state_machine_witness :
    authenticate
      [{ id := 20, emailAddress := "frank@example.com",
         passwordHash := JsField.val (hashSync "Old1!" 1),
         loginAttempts := 0, loginAttemptsExpiry := 0, loginNonces := [],
         verified := true, verificationSlugHash := JsField.null,
         verificationIpHash := JsField.null,
         verificationExpiry := JsField.null }]
      [{ id := 21, emailAddress := "frank@example.com",
         authenticated := false,
         authSlugHash := JsField.val (hashSync "slugA" 2), spent := false }]
      "frank@example.com" "slugA" =
      (Except.ok ResetOutcome.success,
       [{ id := 21, emailAddress := "frank@example.com",
          authenticated := true, authSlugHash := JsField.null,
          spent := false }]) ∧
    authenticate
      [{ id := 20, emailAddress := "frank@example.com",
         passwordHash := JsField.val (hashSync "Old1!" 1),
         loginAttempts := 0, loginAttemptsExpiry := 0, loginNonces := [],
         verified := true, verificationSlugHash := JsField.null,
         verificationIpHash := JsField.null,
         verificationExpiry := JsField.null }]
      [{ id := 21, emailAddress := "frank@example.com",
         authenticated := false,
         authSlugHash := JsField.val (hashSync "slugA" 2), spent := false }]
      "frank@example.com" "wrong" =
      (Except.ok ResetOutcome.unauthorized,
       [{ id := 21, emailAddress := "frank@example.com",
          authenticated := false,
          authSlugHash := JsField.val (hashSync "slugA" 2),
          spent := false }]) ∧
    authenticate
      [{ id := 20, emailAddress := "frank@example.com",
         passwordHash := JsField.val (hashSync "Old1!" 1),
         loginAttempts := 0, loginAttemptsExpiry := 0, loginNonces := [],
         verified := true, verificationSlugHash := JsField.null,
         verificationIpHash := JsField.null,
         verificationExpiry := JsField.null }]
      [{ id := 21, emailAddress := "frank@example.com",
         authenticated := true, authSlugHash := JsField.null, spent := true }]
      "frank@example.com" "slugA" =
      (Except.ok ResetOutcome.notFound,
       [{ id := 21, emailAddress := "frank@example.com",
          authenticated := true, authSlugHash := JsField.null,
          spent := true }]) ∧
    changePassword
      [{ id := 20, emailAddress := "frank@example.com",
         passwordHash := JsField.val (hashSync "Old1!" 1),
         loginAttempts := 0, loginAttemptsExpiry := 0, loginNonces := [],
         verified := true, verificationSlugHash := JsField.null,
         verificationIpHash := JsField.null,
         verificationExpiry := JsField.null }]
      [{ id := 21, emailAddress := "frank@example.com",
         authenticated := true, authSlugHash := JsField.null,
         spent := false }]
      "frank@example.com" "New1!" 3 true =
      (Except.ok ResetOutcome.success,
       [{ id := 21, emailAddress := "frank@example.com",
          authenticated := true, authSlugHash := JsField.null,
          spent := true }],
       [{ id := 20, emailAddress := "frank@example.com",
          passwordHash := JsField.val (hashSync "New1!" 3),
          loginAttempts := 0, loginAttemptsExpiry := 0, loginNonces := [],
          verified := true, verificationSlugHash := JsField.null,
          verificationIpHash := JsField.null,
          verificationExpiry := JsField.null }]) ∧
    changePassword
      [{ id := 20, emailAddress := "frank@example.com",
         passwordHash := JsField.val (hashSync "Old1!" 1),
         loginAttempts := 0, loginAttemptsExpiry := 0, loginNonces := [],
         verified := true, verificationSlugHash := JsField.null,
         verificationIpHash := JsField.null,
         verificationExpiry := JsField.null }]
      [{ id := 21, emailAddress := "frank@example.com",
         authenticated := false,
         authSlugHash := JsField.val (hashSync "slugA" 2), spent := false }]
      "frank@example.com" "New1!" 3 true =
      (Except.ok ResetOutcome.notFound,
       [{ id := 21, emailAddress := "frank@example.com",
          authenticated := false,
          authSlugHash := JsField.val (hashSync "slugA" 2), spent := false }],
       [{ id := 20, emailAddress := "frank@example.com",
          passwordHash := JsField.val (hashSync "Old1!" 1),
          loginAttempts := 0, loginAttemptsExpiry := 0, loginNonces := [],
          verified := true, verificationSlugHash := JsField.null,
          verificationIpHash := JsField.null,
          verificationExpiry := JsField.null }]) :=
  ⟨(reset_token_state_machine
      { id := 20, emailAddress := "frank@example.com",
        passwordHash := JsField.val (hashSync "Old1!" 1),
        loginAttempts := 0, loginAttemptsExpiry := 0, loginNonces := [],
        verified := true, verificationSlugHash := JsField.null,
        verificationIpHash := JsField.null,
        verificationExpiry := JsField.null }
      { id := 21, emailAddress := "frank@example.com",
        authenticated := false,
        authSlugHash := JsField.val (hashSync "slugA" 2), spent := false }
      "slugA" "New1!" (hashSync "slugA" 2) 2 rfl rfl).1 rfl rfl rfl,
   (reset_token_state_machine
      { id := 20, emailAddress := "frank@example.com",
        passwordHash := JsField.val (hashSync "Old1!" 1),
        loginAttempts := 0, loginAttemptsExpiry := 0, loginNonces := [],
        verified := true, verificationSlugHash := JsField.null,
        verificationIpHash := JsField.null,
        verificationExpiry := JsField.null }
      { id := 21, emailAddress := "frank@example.com",
        authenticated := false,
        authSlugHash := JsField.val (hashSync "slugA" 2), spent := false }
      "wrong" "New1!" (hashSync "slugA" 2) 2 rfl rfl).2.1 rfl rfl rfl
      (by decide),
   (reset_token_state_machine
      { id := 20, emailAddress := "frank@example.com",
        passwordHash := JsField.val (hashSync "Old1!" 1),
        loginAttempts := 0, loginAttemptsExpiry := 0, loginNonces := [],
        verified := true, verificationSlugHash := JsField.null,
        verificationIpHash := JsField.null,
        verificationExpiry := JsField.null }
      { id := 21, emailAddress := "frank@example.com",
        authenticated := true, authSlugHash := JsField.null, spent := true }
      "slugA" "New1!" (hashSync "slugA" 2) 2 rfl rfl).2.2.1 (by decide),
   (reset_token_state_machine
      { id := 20, emailAddress := "frank@example.com",
        passwordHash := JsField.val (hashSync "Old1!" 1),
        loginAttempts := 0, loginAttemptsExpiry := 0, loginNonces := [],
        verified := true, verificationSlugHash := JsField.null,
        verificationIpHash := JsField.null,
        verificationExpiry := JsField.null }
      { id := 21, emailAddress := "frank@example.com",
        authenticated := true, authSlugHash := JsField.null, spent := false }
      "slugA" "New1!" (hashSync "slugA" 2) 3 rfl rfl).2.2.2.1 rfl rfl,
   (reset_token_state_machine
      { id := 20, emailAddress := "frank@example.com",
        passwordHash := JsField.val (hashSync "Old1!" 1),
        loginAttempts := 0, loginAttemptsExpiry := 0, loginNonces := [],
        verified := true, verificationSlugHash := JsField.null,
        verificationIpHash := JsField.null,
        verificationExpiry := JsField.null }
      { id := 21, emailAddress := "frank@example.com",
        authenticated := false,
        authSlugHash := JsField.val (hashSync "slugA" 2), spent := false }
      "slugA" "New1!" (hashSync "slugA" 2) 3 rfl rfl).2.2.2.2 (by decide)⟩

/-- C8: when outbound email delivery fails, the just-created record is
removed again before the error propagates: register deletes the new user
and the store of users is exactly as before, and request deletes the new
reset token and the store of tokens is exactly as before, so a retry is
not blocked by an orphaned record. -/
theorem email_failure_rolls_back (users : List User)
    (tokens : List PassToken) (u : User)
    (email₁ pw ip slug₁ email₂ slug₂ : String)
    (ipSalt slugSalt pwSalt newUid now salt₂ newTid : Nat)
    (hnouser : users.find? (fun v => v.emailAddress == email₁) = none)
    (hfreshU : ∀ v ∈ users, v.id ≠ newUid)
    (hverified : findVerifiedUser users email₂ = some u)
    (hnotoken : findAnyToken tokens email₂ = none)
    (hfreshT : ∀ t ∈ tokens, t.id ≠ newTid) :
    register users email₁ pw ip slug₁ ipSalt slugSalt pwSalt newUid now
      true false = (Except.error JsError.emailSendError, users) ∧
    request users tokens email₂ slug₂ salt₂ newTid true false =
      (Except.error JsError.emailSendError, tokens) := by
  have hfilterU : users.filter (fun v => v.id != newUid) = users :=
    List.filter_eq_self.mpr (fun v hv => by simpa using hfreshU v hv)
  have hfilterT : tokens.filter (fun t => t.id != newTid) = tokens :=
    List.filter_eq_self.mpr (fun t ht => by simpa using hfreshT t ht)
  constructor
  · simp [register, hnouser, removeUserById, List.filter_append, hfilterU]
  · simp [request, hverified, hnotoken, removeTokenById, List.filter_append,
      hfilterT]

/-- Witness for email_failure_rolls_back: one verified user in the store;
a registration for a new address and a reset request for the existing
address both fail email delivery and leave the stores exactly as they
were. -/
theorem email_failure_rolls_back_witness :
    register
      [{ id := 30, emailAddress := "grace@example.com",
         passwordHash := JsField.val (hashSync "Pw1!" 1),
         loginAttempts := 0, loginAttemptsExpiry := 0, loginNonces := [],
         verified := true, verificationSlugHash := JsField.null,
         verificationIpHash := JsField.null,
         verificationExpiry := JsField.null }]
      "new@example.com" "Pw2!" "1.2.3.4" "slugR" 1 2 3 31 1000 true false =
      (Except.error JsError.emailSendError,
       [{ id := 30, emailAddress := "grace@example.com",
          passwordHash := JsField.val (hashSync "Pw1!" 1),
          loginAttempts := 0, loginAttemptsExpiry := 0, loginNonces := [],
          verified := true, verificationSlugHash := JsField.null,
          verificationIpHash := JsField.null,
          verificationExpiry := JsField.null }]) ∧
    request
      [{ id := 30, emailAddress := "grace@example.com",
         passwordHash := JsField.val (hashSync "Pw1!" 1),
         loginAttempts := 0, loginAttemptsExpiry := 0, loginNonces := [],
         verified := true, verificationSlugHash := JsField.null,
         verificationIpHash := JsField.null,
         verificationExpiry := JsField.null }]
      [] "grace@example.com" "slugQ" 4 32 true false =
      (Except.error JsError.emailSendError, []) :=
  email_failure_rolls_back
    [{ id := 30, emailAddress := "grace@example.com",
       passwordHash := JsField.val (hashSync "Pw1!" 1),
       loginAttempts := 0, loginAttemptsExpiry := 0, loginNonces := [],
       verified := true, verificationSlugHash := JsField.null,
       verificationIpHash := JsField.null,
       verificationExpiry := JsField.null }] []
    { id := 30, emailAddress := "grace@example.com",
      passwordHash := JsField.val (hashSync "Pw1!" 1),
      loginAttempts := 0, loginAttemptsExpiry := 0, loginNonces := [],
      verified := true, verificationSlugHash := JsField.null,
      verificationIpHash := JsField.null,
      verificationExpiry := JsField.null }
    "new@example.com" "Pw2!" "1.2.3.4" "slugR" "grace@example.com" "slugQ"
    1 2 3 31 1000 4 32
    (by decide) (by decide) (by decide) rfl (by decide)

/-- C10: the exported controller endpoints all apply asyncEndpoint to a
handler with no options argument, but the options parameter is a
destructuring pattern with no default, so that application throws a
TypeError (destructuring okStatus of undefined) instead of yielding a
middleware; in particular it never produces the 200 response the claim
describes.  With an options object supplied the wrapper does respond with
okStatus-or-200 on a successful handler result. -/
theorem async_endpoint_no_options_throws :
    (∀ ret, asyncEndpoint none ret = Except.error JsError.typeError) ∧
    (∀ ret, asyncEndpoint none ret ≠
      Except.ok (EndpointResponse.jsonStatus 200)) ∧
    asyncEndpoint (some { okStatus := none }) HandlerResult.value =
      Except.ok (EndpointResponse.jsonStatus 200) := by
  refine ⟨fun ret => rfl, fun ret => ?_, rfl⟩
  simp [asyncEndpoint]
